import Mathlib

/-!
Verification of the Solar-Analysis calculation layer.

The TypeScript modules `src/lib/utils/data-processing.ts` and the
advanced-calculations module are shallowly embedded below.  JavaScript
numbers are modelled as exact rationals (`ℚ`); integer-valued fields
(`hour`, `month`, ...) as `ℕ`; ISO date strings as `String`; the
insertion-ordered `Map` / plain-object groupings as association lists
updated at the first matching key.
-/

/-- One hourly record (`SolarDataPoint` in `src/lib/types`).  Fields not
used by any calculation under verification (`timestamp`, `time`, `day`,
`monthName`, `dayName`, `quarter`, `weekOfYear`) are omitted. -/
structure SolarDataPoint where
  date : String
  hour : ℕ
  month : ℕ
  year : ℕ
  dayOfWeek : ℕ
  isWeekend : Bool
  solarProduction : ℚ
  energyDemand : ℚ
  netEnergy : ℚ
  gridImport : ℚ
  excessExport : ℚ

/-- Embeds `calculateDerivedMetrics` (data-processing.ts:6-17). -/
def calculateDerivedMetrics (dataPoint : SolarDataPoint) : SolarDataPoint :=
  let netEnergy := dataPoint.solarProduction - dataPoint.energyDemand
  let gridImport := if netEnergy < 0 then |netEnergy| else 0
  let excessExport := if netEnergy > 0 then netEnergy else 0
  { dataPoint with netEnergy := netEnergy, gridImport := gridImport,
                   excessExport := excessExport }

/-- C1: `calculateDerivedMetrics` sets `netEnergy = solarProduction − energyDemand`,
`gridImport = max 0 (−netEnergy)` and `excessExport = max 0 netEnergy`, and on the
derived record exactly one of `gridImport`, `excessExport` is nonzero, both being
zero exactly when `solarProduction = energyDemand`. -/
theorem C1_derived_metrics (p : SolarDataPoint) :
    (calculateDerivedMetrics p).netEnergy = p.solarProduction - p.energyDemand ∧
    (calculateDerivedMetrics p).gridImport
      = max 0 (-(p.solarProduction - p.energyDemand)) ∧
    (calculateDerivedMetrics p).excessExport
      = max 0 (p.solarProduction - p.energyDemand) ∧
    (((calculateDerivedMetrics p).gridImport ≠ 0 ∧
        (calculateDerivedMetrics p).excessExport = 0) ∨
     ((calculateDerivedMetrics p).gridImport = 0 ∧
        (calculateDerivedMetrics p).excessExport ≠ 0) ∨
     ((calculateDerivedMetrics p).gridImport = 0 ∧
        (calculateDerivedMetrics p).excessExport = 0)) ∧
    ((calculateDerivedMetrics p).gridImport = 0 ∧
        (calculateDerivedMetrics p).excessExport = 0 ↔
      p.solarProduction = p.energyDemand) := by
  rcases lt_trichotomy (p.solarProduction - p.energyDemand) 0 with h | h | h
  · have hne : p.solarProduction ≠ p.energyDemand := fun hc => by
      rw [hc] at h; simp at h
    refine ⟨rfl, ?_, ?_, ?_, ?_⟩ <;>
      simp [calculateDerivedMetrics, h, not_lt.mpr h.le, abs_of_neg h, hne,
        max_eq_right (by linarith : (0:ℚ) ≤ -(p.solarProduction - p.energyDemand)),
        sub_eq_zero]
    all_goals first | linarith | (intro hc; linarith) | tauto
  · have he : p.solarProduction = p.energyDemand := by linarith [sub_eq_zero.mp h]
    refine ⟨rfl, ?_, ?_, ?_, ?_⟩ <;> simp [calculateDerivedMetrics, h, he]
  · have hne : ¬ p.solarProduction = p.energyDemand := fun hc => by
      rw [hc] at h; simp at h
    refine ⟨rfl, ?_, ?_, ?_, ?_⟩ <;>
      simp [calculateDerivedMetrics, h, not_lt.mpr h.le, hne, sub_eq_zero,
        max_eq_right h.le]
    all_goals first | linarith | (intro hc; linarith) | tauto

/-- Options accepted by `filterData` (data-processing.ts:331-338). -/
structure FilterOptions where
  startDate : Option String
  endDate : Option String
  months : Option (List ℕ)
  hours : Option (List ℕ)
  weekdaysOnly : Bool
  weekendsOnly : Bool

/-- Embeds `filters.startDate && point.date < filters.startDate` (an absent or
empty-string `startDate`, falsy in JavaScript, imposes no bound). -/
def checkStartDate : Option String → String → Bool
  | none, _ => false
  | some s, d => s != "" && decide (d < s)

/-- Embeds `filters.endDate && point.date > filters.endDate`. -/
def checkEndDate : Option String → String → Bool
  | none, _ => false
  | some s, d => s != "" && decide (s < d)

/-- Embeds the month guard `filters.months && filters.months.length > 0 && !filters.months.includes(point.month)`. -/
def checkMonths : Option (List ℕ) → ℕ → Bool
  | none, _ => false
  | some ms, m => decide (0 < ms.length) && !(ms.contains m)

/-- Embeds the hour guard `filters.hours && filters.hours.length > 0 && !filters.hours.includes(point.hour)`. -/
def checkHours : Option (List ℕ) → ℕ → Bool
  | none, _ => false
  | some hs, h => decide (0 < hs.length) && !(hs.contains h)

/-- The early-return predicate body of `filterData` (data-processing.ts:339-355). -/
def keepPoint (filters : FilterOptions) (point : SolarDataPoint) : Bool :=
  if checkStartDate filters.startDate point.date then false
  else if checkEndDate filters.endDate point.date then false
  else if checkMonths filters.months point.month then false
  else if checkHours filters.hours point.hour then false
  else if filters.weekdaysOnly && point.isWeekend then false
  else if filters.weekendsOnly && !point.isWeekend then false
  else true

/-- Embeds `filterData` (data-processing.ts:331-356). -/
def filterData (data : List SolarDataPoint) (filters : FilterOptions) :
    List SolarDataPoint :=
  data.filter (keepPoint filters)

/-- Modelled from the spec: month constraint is set membership on `month`;
an absent option imposes no constraint, and (per the amended claim) so does
a supplied empty list. -/
def specMonthOk : Option (List ℕ) → ℕ → Bool
  | none, _ => true
  | some ms, m => ms.isEmpty || ms.contains m

/-- Modelled from the spec: hour constraint is set membership on `hour`,
with absent or empty options imposing no constraint. -/
def specHourOk : Option (List ℕ) → ℕ → Bool
  | none, _ => true
  | some hs, h => hs.isEmpty || hs.contains h

/-- Modelled from the spec: conjunction of all supplied predicates (date
bounds mirror the code's falsy-empty-string guard, which the spec does not
discuss). -/
def specKeep (filters : FilterOptions) (point : SolarDataPoint) : Bool :=
  !(checkStartDate filters.startDate point.date) &&
  !(checkEndDate filters.endDate point.date) &&
  specMonthOk filters.months point.month &&
  specHourOk filters.hours point.hour &&
  !(filters.weekdaysOnly && point.isWeekend) &&
  !(filters.weekendsOnly && !point.isWeekend)

/-- A record used to exhibit the empty-months-list behaviour. -/
def c3point : SolarDataPoint :=
  { date := "2025-03-01", hour := 10, month := 3, year := 2025, dayOfWeek := 6,
    isWeekend := true, solarProduction := 1, energyDemand := 2,
    netEnergy := -1, gridImport := 1, excessExport := 0 }

/-- C3 counterexample: with a supplied empty `months` list the code keeps
every record, so the result is not empty as the claim requires. -/
theorem C3_empty_months_cex :
    filterData [c3point]
        { startDate := none, endDate := none, months := some [],
          hours := none, weekdaysOnly := false, weekendsOnly := false }
      = [c3point] ∧
    ([c3point] : List SolarDataPoint) ≠ [] := by
  exact ⟨rfl, List.cons_ne_nil _ _⟩

lemma guard_false_eq (c r : Bool) : (if c then false else r) = (!c && r) := by
  cases c <;> simp

lemma checkMonths_not (o : Option (List ℕ)) (m : ℕ) :
    (!(checkMonths o m)) = specMonthOk o m := by
  cases o with
  | none => rfl
  | some ms => cases ms <;> simp [checkMonths, specMonthOk, Bool.not_and, Bool.not_not]

lemma checkHours_not (o : Option (List ℕ)) (h : ℕ) :
    (!(checkHours o h)) = specHourOk o h := by
  cases o with
  | none => rfl
  | some hs => cases hs <;> simp [checkHours, specHourOk, Bool.not_and, Bool.not_not]

lemma keepPoint_eq_specKeep (filters : FilterOptions) (point : SolarDataPoint) :
    keepPoint filters point = specKeep filters point := by
  simp only [keepPoint, specKeep, guard_false_eq, Bool.and_true,
    checkMonths_not, checkHours_not, Bool.and_assoc]

/-- C3 (amended): `filterData` keeps exactly the records passing the
conjunction of the supplied predicates, where a supplied non-empty `months`
list requires month membership but an absent or empty list imposes no month
constraint, and likewise for `hours`. -/
theorem C3_filter_amended (data : List SolarDataPoint) (filters : FilterOptions) :
    filterData data filters = data.filter (specKeep filters) := by
  unfold filterData
  exact List.filter_congr (fun p _ => keepPoint_eq_specKeep filters p)

/-- One output element of `aggregateByHour` (`HourlyAverage` in types). -/
structure HourlyAverage where
  hour : ℕ
  solarProduction : ℚ
  energyDemand : ℚ
  netEnergy : ℚ
  gridImport : ℚ
  excessExport : ℚ

/-- The per-hour accumulator of `aggregateByHour`: running sums plus the
contribution count kept in `hourCounts`. -/
structure HourBucket where
  solarProduction : ℚ
  energyDemand : ℚ
  gridImport : ℚ
  excessExport : ℚ
  count : ℕ

def emptyBucket : HourBucket := ⟨0, 0, 0, 0, 0⟩

/-- Adding one record to its hour bucket (data-processing.ts:173-184). -/
def bucketAdd (b : HourBucket) (p : SolarDataPoint) : HourBucket :=
  { solarProduction := b.solarProduction + p.solarProduction,
    energyDemand := b.energyDemand + p.energyDemand,
    gridImport := b.gridImport + p.gridImport,
    excessExport := b.excessExport + p.excessExport,
    count := b.count + 1 }

/-- The `hourlyMap`/`hourCounts` state after the summing pass, as a map
from hour to bucket. -/
def hourAccum (m : ℕ → HourBucket) (p : SolarDataPoint) : ℕ → HourBucket :=
  fun h => if h = p.hour then bucketAdd (m h) p else m h

/-- Embeds `aggregateByHour` (data-processing.ts:155-199): 24 pre-initialised
buckets, one summing pass, then averaging with the zero-count divide
guarded by `count || 1`. -/
def aggregateByHour (data : List SolarDataPoint) : List HourlyAverage :=
  let m := data.foldl hourAccum (fun _ => emptyBucket)
  (List.range 24).map (fun h =>
    let b := m h
    let c : ℚ := if b.count = 0 then 1 else (b.count : ℚ)
    { hour := h,
      solarProduction := b.solarProduction / c,
      energyDemand := b.energyDemand / c,
      netEnergy := b.solarProduction / c - b.energyDemand / c,
      gridImport := b.gridImport / c,
      excessExport := b.excessExport / c })

/-- Modelled from the spec: the hour-`h` entry is the average (sum over the
records with that hour, divided by their count, not the total count), with
an empty hour defaulting to 0 in every field. -/
def specHourEntry (data : List SolarDataPoint) (h : ℕ) : HourlyAverage :=
  let pts := data.filter (fun p => p.hour = h)
  if pts.length = 0 then ⟨h, 0, 0, 0, 0, 0⟩
  else
    let c : ℚ := (pts.length : ℚ)
    { hour := h,
      solarProduction := (pts.map (·.solarProduction)).sum / c,
      energyDemand := (pts.map (·.energyDemand)).sum / c,
      netEnergy := (pts.map (·.solarProduction)).sum / c
                     - (pts.map (·.energyDemand)).sum / c,
      gridImport := (pts.map (·.gridImport)).sum / c,
      excessExport := (pts.map (·.excessExport)).sum / c }

lemma foldl_hourAccum_apply (data : List SolarDataPoint)
    (m : ℕ → HourBucket) (h : ℕ) :
    (data.foldl hourAccum m) h
      = (data.filter (fun p => p.hour = h)).foldl bucketAdd (m h) := by
  induction data generalizing m with
  | nil => rfl
  | cons p rest ih =>
    by_cases hp : p.hour = h
    · have e1 : hourAccum m p h = bucketAdd (m h) p := by
        unfold hourAccum; rw [if_pos hp.symm]
      rw [List.foldl_cons, ih, e1, List.filter_cons]
      simp [hp]
    · have e1 : hourAccum m p h = m h := by
        unfold hourAccum; rw [if_neg (fun hc => hp hc.symm)]
      rw [List.foldl_cons, ih, e1, List.filter_cons]
      simp [hp]

lemma foldl_bucketAdd (pts : List SolarDataPoint) (b : HourBucket) :
    pts.foldl bucketAdd b
      = { solarProduction := b.solarProduction + (pts.map (·.solarProduction)).sum,
          energyDemand := b.energyDemand + (pts.map (·.energyDemand)).sum,
          gridImport := b.gridImport + (pts.map (·.gridImport)).sum,
          excessExport := b.excessExport + (pts.map (·.excessExport)).sum,
          count := b.count + pts.length } := by
  induction pts generalizing b with
  | nil => simp
  | cons p rest ih =>
    simp only [List.foldl_cons, ih, List.map_cons, List.sum_cons, List.length_cons,
      bucketAdd]
    congr 1 <;> first | ring | omega


/-- C2: whenever every record's hour lies in 0..23, `aggregateByHour`
returns exactly 24 entries, for hours 0 through 23 in ascending order, each
entry averaging over the records with that hour (empty hours yielding all-zero
fields rather than being omitted). -/
theorem C2_aggregate_by_hour (data : List SolarDataPoint)
    (hh : ∀ p ∈ data, p.hour < 24) :
    aggregateByHour data = (List.range 24).map (specHourEntry data) := by
  unfold aggregateByHour
  refine List.map_congr_left (fun h _ => ?_)
  have hb := foldl_hourAccum_apply data (fun _ => emptyBucket) h
  simp only [hb, foldl_bucketAdd]
  simp only [emptyBucket, zero_add, Nat.zero_add, specHourEntry]
  by_cases hc : (data.filter (fun p => p.hour = h)).length = 0
  · rw [List.length_eq_zero] at hc
    simp [hc]
  · simp [hc]

/-- A small concrete collection with hours within 0..23. -/
def c2data : List SolarDataPoint :=
  [{ date := "2025-01-01", hour := 7, month := 1, year := 2025, dayOfWeek := 3,
     isWeekend := false, solarProduction := 4, energyDemand := 2,
     netEnergy := 2, gridImport := 0, excessExport := 2 },
   { date := "2025-01-02", hour := 7, month := 1, year := 2025, dayOfWeek := 4,
     isWeekend := false, solarProduction := 2, energyDemand := 3,
     netEnergy := -1, gridImport := 1, excessExport := 0 },
   { date := "2025-01-02", hour := 23, month := 1, year := 2025, dayOfWeek := 4,
     isWeekend := false, solarProduction := 0, energyDemand := 1,
     netEnergy := -1, gridImport := 1, excessExport := 0 }]

theorem C2_aggregate_by_hour_witness :
    aggregateByHour c2data = (List.range 24).map (specHourEntry c2data) :=
  C2_aggregate_by_hour c2data (by decide)

/-- One output element of `aggregateByDay` (`DailyData` in types). -/
structure DailyData where
  date : String
  solarProduction : ℚ
  energyDemand : ℚ
  netEnergy : ℚ
  gridImport : ℚ
  excessExport : ℚ

/-- The zero entry inserted when a date is first seen (data-processing.ts:71-80). -/
def dailyZero (date : String) : DailyData := ⟨date, 0, 0, 0, 0, 0⟩

/-- Accumulating one record into its day entry (data-processing.ts:82-87). -/
def dailyAdd (d : DailyData) (p : SolarDataPoint) : DailyData :=
  { d with solarProduction := d.solarProduction + p.solarProduction,
           energyDemand := d.energyDemand + p.energyDemand,
           gridImport := d.gridImport + p.gridImport,
           excessExport := d.excessExport + p.excessExport }

/-- The `dailyMap` update for one record: the insertion-ordered `Map` is
modelled as an association list with unique keys, updated at the matching
key or extended at the end. -/
def dailyUpsert : List DailyData → SolarDataPoint → List DailyData
  | [], p => [dailyAdd (dailyZero p.date) p]
  | d :: rest, p =>
      if d.date = p.date then dailyAdd d p :: rest
      else d :: dailyUpsert rest p

/-- Embeds `aggregateByDay` (data-processing.ts:65-97).  The source sorts by
`new Date(date).getTime()`; on zero-padded ISO dates that order coincides
with the lexicographic string order used here. -/
def aggregateByDay (data : List SolarDataPoint) : List DailyData :=
  let result := (data.foldl dailyUpsert []).map
    (fun d => { d with netEnergy := d.solarProduction - d.energyDemand })
  List.insertionSort (fun a b => a.date ≤ b.date) result

/-- The running accumulator of `calculateSummary` (data-processing.ts:205-220). -/
structure SummaryAcc where
  totalSolarProduction : ℚ
  totalEnergyDemand : ℚ
  totalGridImport : ℚ
  totalExcessExport : ℚ
  peakSolarProduction : ℚ
  peakEnergyDemand : ℚ

def summaryStep (acc : SummaryAcc) (p : SolarDataPoint) : SummaryAcc :=
  { totalSolarProduction := acc.totalSolarProduction + p.solarProduction,
    totalEnergyDemand := acc.totalEnergyDemand + p.energyDemand,
    totalGridImport := acc.totalGridImport + p.gridImport,
    totalExcessExport := acc.totalExcessExport + p.excessExport,
    peakSolarProduction := max acc.peakSolarProduction p.solarProduction,
    peakEnergyDemand := max acc.peakEnergyDemand p.energyDemand }

/-- The rollup object returned by `calculateSummary` (`DataSummary` in types). -/
structure DataSummary where
  totalSolarProduction : ℚ
  totalEnergyDemand : ℚ
  totalGridImport : ℚ
  totalExcessExport : ℚ
  averageDailySolarProduction : ℚ
  averageDailyEnergyDemand : ℚ
  peakSolarProduction : ℚ
  peakEnergyDemand : ℚ
  selfConsumptionPercentage : ℚ
  gridDependencyPercentage : ℚ

/-- Embeds `calculateSummary` (data-processing.ts:204-246).  `new Set(dates).size`
is modelled as the length of `List.dedup`; `size || 1` as the zero test. -/
def calculateSummary (data : List SolarDataPoint) : DataSummary :=
  let acc := data.foldl summaryStep ⟨0, 0, 0, 0, 0, 0⟩
  let uniqueCount := ((data.map (·.date)).dedup).length
  let dayCount : ℚ := if uniqueCount = 0 then 1 else (uniqueCount : ℚ)
  let selfConsumptionPercentage :=
    if 0 < acc.totalSolarProduction then
      (acc.totalSolarProduction - acc.totalExcessExport)
        / acc.totalSolarProduction * 100
    else 0
  let gridDependencyPercentage :=
    if 0 < acc.totalEnergyDemand then
      acc.totalGridImport / acc.totalEnergyDemand * 100
    else 0
  { totalSolarProduction := acc.totalSolarProduction,
    totalEnergyDemand := acc.totalEnergyDemand,
    totalGridImport := acc.totalGridImport,
    totalExcessExport := acc.totalExcessExport,
    averageDailySolarProduction := acc.totalSolarProduction / dayCount,
    averageDailyEnergyDemand := acc.totalEnergyDemand / dayCount,
    peakSolarProduction := acc.peakSolarProduction,
    peakEnergyDemand := acc.peakEnergyDemand,
    selfConsumptionPercentage := selfConsumptionPercentage,
    gridDependencyPercentage := gridDependencyPercentage }

lemma foldl_step_add {β M : Type} [AddCommMonoid M]
    (step : β → SolarDataPoint → β) (f : β → M)
    (g : SolarDataPoint → M) (hstep : ∀ b p, f (step b p) = f b + g p)
    (l : List SolarDataPoint) (b : β) :
    f (l.foldl step b) = f b + (l.map g).sum := by
  induction l generalizing b with
  | nil => simp
  | cons p rest ih => simp [List.foldl_cons, ih, hstep, add_assoc]

lemma dailyUpsert_sum (f : DailyData → ℚ) (g : SolarDataPoint → ℚ)
    (hadd : ∀ d p, f (dailyAdd d p) = f d + g p)
    (hzero : ∀ s, f (dailyZero s) = 0)
    (acc : List DailyData) (p : SolarDataPoint) :
    ((dailyUpsert acc p).map f).sum = (acc.map f).sum + g p := by
  induction acc with
  | nil => simp [dailyUpsert, hadd, hzero]
  | cons d rest ih =>
    by_cases h : d.date = p.date
    · simp [dailyUpsert, h, hadd]; ring
    · simp [dailyUpsert, h, ih]; ring

lemma foldl_dailyUpsert_sum (f : DailyData → ℚ) (g : SolarDataPoint → ℚ)
    (hadd : ∀ d p, f (dailyAdd d p) = f d + g p)
    (hzero : ∀ s, f (dailyZero s) = 0)
    (l : List SolarDataPoint) (acc : List DailyData) :
    ((l.foldl dailyUpsert acc).map f).sum = (acc.map f).sum + (l.map g).sum := by
  induction l generalizing acc with
  | nil => simp
  | cons p rest ih =>
    simp [List.foldl_cons, ih, dailyUpsert_sum f g hadd hzero]
    ring

lemma aggregateByDay_sum (f : DailyData → ℚ) (g : SolarDataPoint → ℚ)
    (hadd : ∀ d p, f (dailyAdd d p) = f d + g p)
    (hzero : ∀ s, f (dailyZero s) = 0)
    (hnet : ∀ d, f { d with netEnergy := d.solarProduction - d.energyDemand } = f d)
    (data : List SolarDataPoint) :
    ((aggregateByDay data).map f).sum = (data.map g).sum := by
  unfold aggregateByDay
  have hperm := List.perm_insertionSort
    (fun a b : DailyData => a.date ≤ b.date)
    ((data.foldl dailyUpsert []).map
      (fun d => { d with netEnergy := d.solarProduction - d.energyDemand }))
  rw [(hperm.map f).sum_eq, List.map_map]
  have : (f ∘ fun d => { d with netEnergy := d.solarProduction - d.energyDemand })
      = f := funext fun d => hnet d
  rw [this, foldl_dailyUpsert_sum f g hadd hzero]
  simp

lemma calculateSummary_totals (data : List SolarDataPoint) :
    (calculateSummary data).totalSolarProduction
      = (data.map (·.solarProduction)).sum ∧
    (calculateSummary data).totalEnergyDemand
      = (data.map (·.energyDemand)).sum ∧
    (calculateSummary data).totalGridImport
      = (data.map (·.gridImport)).sum ∧
    (calculateSummary data).totalExcessExport
      = (data.map (·.excessExport)).sum := by
  refine ⟨?_, ?_, ?_, ?_⟩
  · show (data.foldl summaryStep ⟨0, 0, 0, 0, 0, 0⟩).totalSolarProduction = _
    rw [foldl_step_add summaryStep (fun a => a.totalSolarProduction)
      (fun p => p.solarProduction) (fun b p => rfl) data ⟨0, 0, 0, 0, 0, 0⟩]
    simp
  · show (data.foldl summaryStep ⟨0, 0, 0, 0, 0, 0⟩).totalEnergyDemand = _
    rw [foldl_step_add summaryStep (fun a => a.totalEnergyDemand)
      (fun p => p.energyDemand) (fun b p => rfl) data ⟨0, 0, 0, 0, 0, 0⟩]
    simp
  · show (data.foldl summaryStep ⟨0, 0, 0, 0, 0, 0⟩).totalGridImport = _
    rw [foldl_step_add summaryStep (fun a => a.totalGridImport)
      (fun p => p.gridImport) (fun b p => rfl) data ⟨0, 0, 0, 0, 0, 0⟩]
    simp
  · show (data.foldl summaryStep ⟨0, 0, 0, 0, 0, 0⟩).totalExcessExport = _
    rw [foldl_step_add summaryStep (fun a => a.totalExcessExport)
      (fun p => p.excessExport) (fun b p => rfl) data ⟨0, 0, 0, 0, 0, 0⟩]
    simp

/-- C4: summing each of the four energy fields over `aggregateByDay`'s
output reproduces the corresponding total of `calculateSummary` on the same
collection. -/
theorem C4_daily_sums_match_summary (data : List SolarDataPoint) :
    ((aggregateByDay data).map (·.solarProduction)).sum
      = (calculateSummary data).totalSolarProduction ∧
    ((aggregateByDay data).map (·.energyDemand)).sum
      = (calculateSummary data).totalEnergyDemand ∧
    ((aggregateByDay data).map (·.gridImport)).sum
      = (calculateSummary data).totalGridImport ∧
    ((aggregateByDay data).map (·.excessExport)).sum
      = (calculateSummary data).totalExcessExport := by
  refine ⟨?_, ?_, ?_, ?_⟩
  · rw [aggregateByDay_sum (fun d => d.solarProduction)
      (fun p => p.solarProduction) (fun d p => rfl) (fun s => rfl)
      (fun d => rfl)]
    exact ((calculateSummary_totals data).1).symm
  · rw [aggregateByDay_sum (fun d => d.energyDemand)
      (fun p => p.energyDemand) (fun d p => rfl) (fun s => rfl)
      (fun d => rfl)]
    exact ((calculateSummary_totals data).2.1).symm
  · rw [aggregateByDay_sum (fun d => d.gridImport)
      (fun p => p.gridImport) (fun d p => rfl) (fun s => rfl)
      (fun d => rfl)]
    exact ((calculateSummary_totals data).2.2.1).symm
  · rw [aggregateByDay_sum (fun d => d.excessExport)
      (fun p => p.excessExport) (fun d p => rfl) (fun s => rfl)
      (fun d => rfl)]
    exact ((calculateSummary_totals data).2.2.2).symm

lemma dayCount_cast (n : ℕ) :
    (if n = 0 then (1 : ℚ) else (n : ℚ)) = ((max 1 n : ℕ) : ℚ) := by
  cases n with
  | zero => simp
  | succ k =>
    have h1 : max 1 (k + 1) = k + 1 := by omega
    simp [h1]

/-- C8: `calculateSummary` is total on degenerate input: the empty
collection yields the all-zero summary (`dayCount` treated as 1); each
percentage substitutes 0 when its denominator is 0; and the daily averages
divide by the number of distinct date values with a minimum of 1. -/
theorem C8_summary_degenerate :
    calculateSummary [] = ⟨0, 0, 0, 0, 0, 0, 0, 0, 0, 0⟩ ∧
    ∀ data : List SolarDataPoint,
      ((calculateSummary data).totalSolarProduction = 0 →
        (calculateSummary data).selfConsumptionPercentage = 0) ∧
      ((calculateSummary data).totalEnergyDemand = 0 →
        (calculateSummary data).gridDependencyPercentage = 0) ∧
      (calculateSummary data).averageDailySolarProduction
        = (calculateSummary data).totalSolarProduction
            / ((max 1 ((data.map (·.date)).toFinset.card) : ℕ) : ℚ) ∧
      (calculateSummary data).averageDailyEnergyDemand
        = (calculateSummary data).totalEnergyDemand
            / ((max 1 ((data.map (·.date)).toFinset.card) : ℕ) : ℚ) := by
  constructor
  · show calculateSummary [] = _
    unfold calculateSummary
    norm_num
  · intro data
    refine ⟨?_, ?_, ?_, ?_⟩
    · intro h
      have h' : (data.foldl summaryStep ⟨0, 0, 0, 0, 0, 0⟩).totalSolarProduction
          = 0 := h
      simp [calculateSummary, h']
    · intro h
      have h' : (data.foldl summaryStep ⟨0, 0, 0, 0, 0, 0⟩).totalEnergyDemand
          = 0 := h
      simp [calculateSummary, h']
    · show (data.foldl summaryStep ⟨0, 0, 0, 0, 0, 0⟩).totalSolarProduction
          / (if ((data.map (·.date)).dedup).length = 0 then (1 : ℚ)
             else (((data.map (·.date)).dedup).length : ℚ)) = _
      rw [dayCount_cast, List.card_toFinset]
      rfl
    · show (data.foldl summaryStep ⟨0, 0, 0, 0, 0, 0⟩).totalEnergyDemand
          / (if ((data.map (·.date)).dedup).length = 0 then (1 : ℚ)
             else (((data.map (·.date)).dedup).length : ℚ)) = _
      rw [dayCount_cast, List.card_toFinset]
      rfl

theorem C8_summary_degenerate_witness :
    (calculateSummary []).selfConsumptionPercentage = 0 ∧
    (calculateSummary []).gridDependencyPercentage = 0 :=
  ⟨(C8_summary_degenerate.2 []).1 rfl, (C8_summary_degenerate.2 []).2.1 rfl⟩

/-- The running accumulator of `calculateCostSavings` (advanced
calculations module, lines 15-42). -/
structure CostAcc where
  totalGridImportCost : ℚ
  totalGridExportCredit : ℚ
  totalSolarSavings : ℚ
  totalCostWithoutSolar : ℚ
  totalCostWithSolar : ℚ

def costStep (gridImportRate gridExportRate : ℚ) (acc : CostAcc)
    (p : SolarDataPoint) : CostAcc :=
  { totalGridImportCost := acc.totalGridImportCost + p.gridImport * gridImportRate,
    totalGridExportCredit :=
      acc.totalGridExportCredit + p.excessExport * gridExportRate,
    totalSolarSavings := acc.totalSolarSavings
      + (p.solarProduction - p.excessExport) * gridImportRate,
    totalCostWithoutSolar :=
      acc.totalCostWithoutSolar + p.energyDemand * gridImportRate,
    totalCostWithSolar := acc.totalCostWithSolar
      + (p.gridImport * gridImportRate - p.excessExport * gridExportRate) }

structure CostSavingsResult where
  totalGridImportCost : ℚ
  totalGridExportCredit : ℚ
  totalSolarSavings : ℚ
  totalCostWithoutSolar : ℚ
  totalCostWithSolar : ℚ
  totalSavings : ℚ
  savingsPercentage : ℚ

/-- Embeds `calculateCostSavings` (advanced calculations, lines 10-61); the rate
parameters default to 0.15 and 0.08 at call sites. -/
def calculateCostSavings (data : List SolarDataPoint)
    (gridImportRate gridExportRate : ℚ) : CostSavingsResult :=
  let acc := data.foldl (costStep gridImportRate gridExportRate) ⟨0, 0, 0, 0, 0⟩
  let totalSavings := acc.totalCostWithoutSolar - acc.totalCostWithSolar
  let savingsPercentage :=
    if 0 < acc.totalCostWithoutSolar then
      totalSavings / acc.totalCostWithoutSolar * 100
    else 0
  { totalGridImportCost := acc.totalGridImportCost,
    totalGridExportCredit := acc.totalGridExportCredit,
    totalSolarSavings := acc.totalSolarSavings,
    totalCostWithoutSolar := acc.totalCostWithoutSolar,
    totalCostWithSolar := acc.totalCostWithSolar,
    totalSavings := totalSavings,
    savingsPercentage := savingsPercentage }

lemma sum_map_sub {α : Type} (l : List α) (f g : α → ℚ) :
    (l.map (fun x => f x - g x)).sum = (l.map f).sum - (l.map g).sum := by
  induction l with
  | nil => simp
  | cons a rest ih => simp [ih]; ring

/-- A record is "derived" when its `gridImport`/`excessExport` carry the
values `calculateDerivedMetrics` would assign. -/
def IsDerived (p : SolarDataPoint) : Prop :=
  p.gridImport = max 0 (p.energyDemand - p.solarProduction) ∧
  p.excessExport = max 0 (p.solarProduction - p.energyDemand)

lemma derived_demand_sub_import (p : SolarDataPoint) (h : IsDerived p) :
    p.energyDemand - p.gridImport = p.solarProduction - p.excessExport := by
  obtain ⟨h1, h2⟩ := h
  rcases le_total p.solarProduction p.energyDemand with hle | hle
  · rw [h1, h2, max_eq_right (by linarith), max_eq_left (by linarith)]
    ring
  · rw [h1, h2, max_eq_left (by linarith), max_eq_right (by linarith)]
    ring

/-- C10: on derived records and non-negative rates, the total savings of
`calculateCostSavings` decompose exactly into solar savings plus grid
export credit. -/
theorem C10_cost_savings_decompose (data : List SolarDataPoint)
    (gridImportRate gridExportRate : ℚ)
    (hder : ∀ p ∈ data, IsDerived p)
    (hr1 : 0 ≤ gridImportRate) (hr2 : 0 ≤ gridExportRate) :
    (calculateCostSavings data gridImportRate gridExportRate).totalSavings
      = (calculateCostSavings data gridImportRate gridExportRate).totalSolarSavings
        + (calculateCostSavings data gridImportRate gridExportRate).totalGridExportCredit := by
  have hwo := foldl_step_add (costStep gridImportRate gridExportRate)
    (fun a => a.totalCostWithoutSolar)
    (fun p => p.energyDemand * gridImportRate) (fun b p => rfl)
    data ⟨0, 0, 0, 0, 0⟩
  have hws := foldl_step_add (costStep gridImportRate gridExportRate)
    (fun a => a.totalCostWithSolar)
    (fun p => p.gridImport * gridImportRate - p.excessExport * gridExportRate)
    (fun b p => rfl) data ⟨0, 0, 0, 0, 0⟩
  have hss := foldl_step_add (costStep gridImportRate gridExportRate)
    (fun a => a.totalSolarSavings)
    (fun p => (p.solarProduction - p.excessExport) * gridImportRate)
    (fun b p => rfl) data ⟨0, 0, 0, 0, 0⟩
  have hcr := foldl_step_add (costStep gridImportRate gridExportRate)
    (fun a => a.totalGridExportCredit)
    (fun p => p.excessExport * gridExportRate) (fun b p => rfl)
    data ⟨0, 0, 0, 0, 0⟩
  have key : data.map (fun p => (p.energyDemand - p.gridImport) * gridImportRate)
      = data.map (fun p => (p.solarProduction - p.excessExport) * gridImportRate) :=
    List.map_congr_left fun p hp => by
      rw [derived_demand_sub_import p (hder p hp)]
  have e1 : (data.map (fun p => p.energyDemand * gridImportRate)).sum
        - (data.map (fun p => p.gridImport * gridImportRate)).sum
      = (data.map (fun p => (p.solarProduction - p.excessExport)
          * gridImportRate)).sum := by
    rw [← sum_map_sub, ← key]
    congr 1
    exact List.map_congr_left fun p hp => by ring
  have e2 : (data.map (fun p => p.gridImport * gridImportRate
        - p.excessExport * gridExportRate)).sum
      = (data.map (fun p => p.gridImport * gridImportRate)).sum
        - (data.map (fun p => p.excessExport * gridExportRate)).sum :=
    sum_map_sub data _ _
  simp only [calculateCostSavings]
  rw [hwo, hws, hss, hcr, e2]
  simp only []
  linarith [e1]

theorem C10_cost_savings_decompose_witness :
    (calculateCostSavings c2data 1 (1/2)).totalSavings
      = (calculateCostSavings c2data 1 (1/2)).totalSolarSavings
        + (calculateCostSavings c2data 1 (1/2)).totalGridExportCredit :=
  C10_cost_savings_decompose c2data 1 (1/2)
    (by intro p hp; fin_cases hp <;> exact ⟨by norm_num [max_def], by norm_num [max_def]⟩)
    (by norm_num) (by norm_num)

/-- The running state of `calculateSelfSufficiency` (advanced
calculations, lines 117-156). -/
structure SelfSufficiencyAcc where
  totalSolarProduction : ℚ
  totalEnergyDemand : ℚ
  totalGridImport : ℚ
  totalExcessExport : ℚ
  totalSelfConsumed : ℚ
  selfSufficientHours : ℕ
  excessProductionHours : ℕ
  gridDependentHours : ℕ
  noProductionHours : ℕ

/-- One iteration of the categorising loop, with the four-way
priority-ordered if/else chain of lines 147-155. -/
def ssStep (acc : SelfSufficiencyAcc) (p : SolarDataPoint) :
    SelfSufficiencyAcc :=
  let acc :=
    { acc with
      totalSolarProduction := acc.totalSolarProduction + p.solarProduction,
      totalEnergyDemand := acc.totalEnergyDemand + p.energyDemand,
      totalGridImport := acc.totalGridImport + p.gridImport,
      totalExcessExport := acc.totalExcessExport + p.excessExport,
      totalSelfConsumed :=
        acc.totalSelfConsumed + (p.solarProduction - p.excessExport) }
  if p.solarProduction = 0 then
    { acc with noProductionHours := acc.noProductionHours + 1 }
  else if p.gridImport = 0 ∧ p.excessExport = 0 then
    { acc with selfSufficientHours := acc.selfSufficientHours + 1 }
  else if 0 < p.excessExport then
    { acc with excessProductionHours := acc.excessProductionHours + 1 }
  else if 0 < p.gridImport then
    { acc with gridDependentHours := acc.gridDependentHours + 1 }
  else acc

structure SelfSufficiencyResult where
  totalSelfConsumed : ℚ
  selfSufficiencyPercentage : ℚ
  selfConsumptionPercentage : ℚ
  gridDependencyPercentage : ℚ
  selfSufficientHours : ℕ
  excessProductionHours : ℕ
  gridDependentHours : ℕ
  noProductionHours : ℕ
  hoursCounted : ℕ

/-- Embeds `calculateSelfSufficiency` (advanced calculations, lines 117-184). -/
def calculateSelfSufficiency (data : List SolarDataPoint) :
    SelfSufficiencyResult :=
  let acc := data.foldl ssStep ⟨0, 0, 0, 0, 0, 0, 0, 0, 0⟩
  { totalSelfConsumed := acc.totalSelfConsumed,
    selfSufficiencyPercentage :=
      if 0 < acc.totalEnergyDemand then
        acc.totalSelfConsumed / acc.totalEnergyDemand * 100
      else 0,
    selfConsumptionPercentage :=
      if 0 < acc.totalSolarProduction then
        acc.totalSelfConsumed / acc.totalSolarProduction * 100
      else 0,
    gridDependencyPercentage :=
      if 0 < acc.totalEnergyDemand then
        acc.totalGridImport / acc.totalEnergyDemand * 100
      else 0,
    selfSufficientHours := acc.selfSufficientHours,
    excessProductionHours := acc.excessProductionHours,
    gridDependentHours := acc.gridDependentHours,
    noProductionHours := acc.noProductionHours,
    hoursCounted := data.length }

/-- The resolved category of the priority-ordered chain: `noProduction`
first, then `selfSufficient`, then `excessProduction`, then
`gridDependent`. -/
def isNoProduction (p : SolarDataPoint) : Bool :=
  decide (p.solarProduction = 0)

def isSelfSufficient (p : SolarDataPoint) : Bool :=
  !(isNoProduction p) && decide (p.gridImport = 0 ∧ p.excessExport = 0)

def isExcessProduction (p : SolarDataPoint) : Bool :=
  !(isNoProduction p) && !(decide (p.gridImport = 0 ∧ p.excessExport = 0)) &&
  decide (0 < p.excessExport)

def isGridDependent (p : SolarDataPoint) : Bool :=
  !(isNoProduction p) && !(decide (p.gridImport = 0 ∧ p.excessExport = 0)) &&
  !(decide (0 < p.excessExport)) && decide (0 < p.gridImport)

/-- How many of the four categories a record lands in. -/
def categoryCount (p : SolarDataPoint) : ℕ :=
  (isNoProduction p).toNat + (isSelfSufficient p).toNat
    + (isExcessProduction p).toNat + (isGridDependent p).toNat

lemma ssStep_counts (acc : SelfSufficiencyAcc) (p : SolarDataPoint) :
    (ssStep acc p).noProductionHours + (ssStep acc p).selfSufficientHours
      + (ssStep acc p).excessProductionHours + (ssStep acc p).gridDependentHours
    = (acc.noProductionHours + acc.selfSufficientHours
       + acc.excessProductionHours + acc.gridDependentHours)
      + categoryCount p := by
  by_cases h1 : p.solarProduction = 0
  · simp [ssStep, h1, categoryCount, isNoProduction, isSelfSufficient,
      isExcessProduction, isGridDependent]
    omega
  · by_cases h2 : p.gridImport = 0 ∧ p.excessExport = 0
    · simp [ssStep, h1, h2, categoryCount, isNoProduction, isSelfSufficient,
        isExcessProduction, isGridDependent]
      omega
    · by_cases h3 : 0 < p.excessExport
      · simp [ssStep, h1, h2, h3, categoryCount, isNoProduction,
          isSelfSufficient, isExcessProduction, isGridDependent]
        omega
      · by_cases h4 : 0 < p.gridImport
        · simp [ssStep, h1, h2, h3, h4, categoryCount, isNoProduction,
            isSelfSufficient, isExcessProduction, isGridDependent]
          omega
        · simp [ssStep, h1, h2, h3, h4, categoryCount, isNoProduction,
            isSelfSufficient, isExcessProduction, isGridDependent]

lemma categoryCount_eq_one (p : SolarDataPoint)
    (hgi : 0 ≤ p.gridImport) (hee : 0 ≤ p.excessExport) :
    categoryCount p = 1 := by
  by_cases h1 : p.solarProduction = 0
  · simp [categoryCount, isNoProduction, isSelfSufficient, isExcessProduction,
      isGridDependent, h1]
  · by_cases h2 : p.gridImport = 0 ∧ p.excessExport = 0
    · simp [categoryCount, isNoProduction, isSelfSufficient,
        isExcessProduction, isGridDependent, h1, h2]
    · by_cases h3 : 0 < p.excessExport
      · simp [categoryCount, isNoProduction, isSelfSufficient,
          isExcessProduction, isGridDependent, h1, h2, h3]
      · have hee0 : p.excessExport = 0 := le_antisymm (not_lt.mp h3) hee
        have hgi0 : 0 < p.gridImport := by
          rcases lt_or_eq_of_le hgi with h | h
          · exact h
          · exact absurd ⟨h.symm, hee0⟩ h2
        simp [categoryCount, isNoProduction, isSelfSufficient,
          isExcessProduction, isGridDependent, h1, h2, h3, hgi0]

lemma sum_map_one {α : Type} (l : List α) :
    (l.map (fun _ => (1 : ℕ))).sum = l.length := by
  induction l with
  | nil => rfl
  | cons a rest ih => simp [ih, Nat.add_comm]

/-- A record with a negative stored `gridImport`: not derivable, but a
legal input value for the record type. -/
def c5bad : SolarDataPoint :=
  { date := "2025-01-01", hour := 12, month := 1, year := 2025,
    dayOfWeek := 3, isWeekend := false, solarProduction := 1,
    energyDemand := 2, netEnergy := -1, gridImport := -1, excessExport := 0 }

/-- C5 counterexample: a record with a negative `gridImport` falls through
every branch of the chain, so the four counts sum to 0 while one record was
processed — the unrestricted "for any input" part of the claim fails. -/
theorem C5_classification_cex :
    (calculateSelfSufficiency [c5bad]).noProductionHours
      + (calculateSelfSufficiency [c5bad]).selfSufficientHours
      + (calculateSelfSufficiency [c5bad]).excessProductionHours
      + (calculateSelfSufficiency [c5bad]).gridDependentHours = 0
    ∧ (calculateSelfSufficiency [c5bad]).hoursCounted = 1 := by
  constructor
  · norm_num [calculateSelfSufficiency, ssStep, c5bad]
  · rfl

/-- C5 (amended): when every record has non-negative `gridImport` and
`excessExport` (as every derived record does), each record falls into
exactly one of the four priority-ordered categories, and the four category
counts sum to the record count. -/
theorem C5_classification (data : List SolarDataPoint)
    (h : ∀ p ∈ data, 0 ≤ p.gridImport ∧ 0 ≤ p.excessExport) :
    (∀ p ∈ data, categoryCount p = 1) ∧
    (calculateSelfSufficiency data).noProductionHours
      + (calculateSelfSufficiency data).selfSufficientHours
      + (calculateSelfSufficiency data).excessProductionHours
      + (calculateSelfSufficiency data).gridDependentHours
    = (calculateSelfSufficiency data).hoursCounted := by
  have hone : ∀ p ∈ data, categoryCount p = 1 := fun p hp =>
    categoryCount_eq_one p (h p hp).1 (h p hp).2
  refine ⟨hone, ?_⟩
  have hsum := foldl_step_add ssStep
    (fun a => a.noProductionHours + a.selfSufficientHours
      + a.excessProductionHours + a.gridDependentHours)
    categoryCount ssStep_counts data ⟨0, 0, 0, 0, 0, 0, 0, 0, 0⟩
  show (data.foldl ssStep ⟨0, 0, 0, 0, 0, 0, 0, 0, 0⟩).noProductionHours
      + (data.foldl ssStep ⟨0, 0, 0, 0, 0, 0, 0, 0, 0⟩).selfSufficientHours
      + (data.foldl ssStep ⟨0, 0, 0, 0, 0, 0, 0, 0, 0⟩).excessProductionHours
      + (data.foldl ssStep ⟨0, 0, 0, 0, 0, 0, 0, 0, 0⟩).gridDependentHours
    = data.length
  rw [hsum]
  have : data.map categoryCount = data.map (fun _ => (1 : ℕ)) :=
    List.map_congr_left fun p hp => hone p hp
  rw [this, sum_map_one]
  simp

theorem C5_classification_witness :
    (calculateSelfSufficiency c2data).noProductionHours
      + (calculateSelfSufficiency c2data).selfSufficientHours
      + (calculateSelfSufficiency c2data).excessProductionHours
      + (calculateSelfSufficiency c2data).gridDependentHours
    = (calculateSelfSufficiency c2data).hoursCounted :=
  (C5_classification c2data
    (by intro p hp; fin_cases hp <;> exact ⟨by norm_num, by norm_num⟩)).2

/-- The per-record update of the `dailyData` grouping object used by both
`calculateStoragePotential` and `calculatePeakShaving` (advanced
calculations, lines 193-201 and 293-301): a plain object with string date
keys iterated in insertion order, modelled as an association list. -/
def groupUpsert :
    List (String × List SolarDataPoint) → SolarDataPoint →
    List (String × List SolarDataPoint)
  | [], p => [(p.date, [p])]
  | g :: rest, p =>
      if g.1 = p.date then (g.1, g.2 ++ [p]) :: rest
      else g :: groupUpsert rest p

def groupByDate (data : List SolarDataPoint) :
    List (String × List SolarDataPoint) :=
  data.foldl groupUpsert []

/-- Keys of the grouping object in first-occurrence order. -/
def keyInsert (acc : List String) (s : String) : List String :=
  if s ∈ acc then acc else acc ++ [s]

def firstDates (data : List SolarDataPoint) : List String :=
  data.foldl (fun acc p => keyInsert acc p.date) []

lemma mem_keyInsert_self (acc : List String) (s : String) :
    s ∈ keyInsert acc s := by
  unfold keyInsert
  split
  · assumption
  · simp

lemma mem_keyInsert_of_mem (acc : List String) (s t : String) (h : t ∈ acc) :
    t ∈ keyInsert acc s := by
  unfold keyInsert
  split
  · exact h
  · simp [h]

lemma mem_foldl_keyInsert_of_mem (xs : List SolarDataPoint)
    (acc : List String) (t : String) (h : t ∈ acc) :
    t ∈ xs.foldl (fun a p => keyInsert a p.date) acc := by
  induction xs generalizing acc with
  | nil => exact h
  | cons x rest ih => exact ih _ (mem_keyInsert_of_mem _ _ _ h)

lemma date_mem_firstDates (data : List SolarDataPoint) :
    ∀ q ∈ data, q.date ∈ firstDates data := by
  suffices h : ∀ (xs : List SolarDataPoint) (acc : List String), ∀ q ∈ xs,
      q.date ∈ xs.foldl (fun a p => keyInsert a p.date) acc from
    fun q hq => h data [] q hq
  intro xs
  induction xs with
  | nil => intro acc q hq; simp at hq
  | cons x rest ih =>
    intro acc q hq
    rcases List.mem_cons.mp hq with rfl | hq'
    · exact mem_foldl_keyInsert_of_mem rest _ _ (mem_keyInsert_self acc q.date)
    · exact ih _ q hq'

lemma keyInsert_nodup (acc : List String) (s : String) (h : acc.Nodup) :
    (keyInsert acc s).Nodup := by
  unfold keyInsert
  split
  · exact h
  · next hns => simp [List.nodup_append, h, hns]

lemma firstDates_nodup (data : List SolarDataPoint) :
    (firstDates data).Nodup := by
  suffices h : ∀ (xs : List SolarDataPoint) (acc : List String), acc.Nodup →
      (xs.foldl (fun a p => keyInsert a p.date) acc).Nodup from
    h data [] List.nodup_nil
  intro xs
  induction xs with
  | nil => exact fun acc h => h
  | cons x rest ih => exact fun acc h => ih _ (keyInsert_nodup _ _ h)

lemma filter_append_singleton_eq (l : List SolarDataPoint)
    (p : SolarDataPoint) (d : String) (h : p.date = d) :
    (l ++ [p]).filter (fun q => q.date = d)
      = l.filter (fun q => q.date = d) ++ [p] := by
  simp [List.filter_append, h]

lemma filter_append_singleton_ne (l : List SolarDataPoint)
    (p : SolarDataPoint) (d : String) (h : ¬ p.date = d) :
    (l ++ [p]).filter (fun q => q.date = d)
      = l.filter (fun q => q.date = d) := by
  simp [List.filter_append, h]

lemma groupUpsert_map (keys : List String) (l : List SolarDataPoint)
    (p : SolarDataPoint) (hnodup : keys.Nodup)
    (habs : p.date ∉ keys → l.filter (fun q => q.date = p.date) = []) :
    groupUpsert (keys.map (fun d => (d, l.filter (fun q => q.date = d)))) p
      = (keyInsert keys p.date).map
          (fun d => (d, (l ++ [p]).filter (fun q => q.date = d))) := by
  induction keys with
  | nil =>
    have h0 : l.filter (fun q => q.date = p.date) = [] := habs (by simp)
    simp [groupUpsert, keyInsert, filter_append_singleton_eq l p p.date rfl, h0]
  | cons k rest ih =>
    obtain ⟨hk_notin, hrest_nodup⟩ := List.nodup_cons.mp hnodup
    by_cases hk : k = p.date
    · have hmem : p.date ∈ k :: rest := by simp [hk]
      rw [List.map_cons,
        show groupUpsert ((k, l.filter (fun q => q.date = k)) ::
            rest.map (fun d => (d, l.filter (fun q => q.date = d)))) p
          = (k, l.filter (fun q => q.date = k) ++ [p]) ::
            rest.map (fun d => (d, l.filter (fun q => q.date = d)))
          from by simp [groupUpsert, hk],
        show keyInsert (k :: rest) p.date = k :: rest
          from by simp [keyInsert, hmem],
        List.map_cons]
      congr 1
      · rw [filter_append_singleton_eq l p k hk.symm]
      · refine List.map_congr_left fun d hd => ?_
        have hnd : ¬ p.date = d := fun hc => hk_notin (hk.trans hc ▸ hd)
        rw [filter_append_singleton_ne l p d hnd]
    · have hpk : ¬ p.date = k := fun hc => hk hc.symm
      have habs' : p.date ∉ rest →
          l.filter (fun q => q.date = p.date) = [] := by
        intro hnr
        exact habs (by simp [hpk, hnr])
      have hki : keyInsert (k :: rest) p.date
          = k :: keyInsert rest p.date := by
        by_cases hm : p.date ∈ rest <;> simp [keyInsert, hm, hpk]
      rw [List.map_cons,
        show groupUpsert ((k, l.filter (fun q => q.date = k)) ::
            rest.map (fun d => (d, l.filter (fun q => q.date = d)))) p
          = (k, l.filter (fun q => q.date = k)) ::
            groupUpsert (rest.map (fun d => (d, l.filter (fun q => q.date = d)))) p
          from by simp [groupUpsert, hk],
        ih hrest_nodup habs', hki, List.map_cons,
        filter_append_singleton_ne l p k hpk]

lemma groupByDate_eq (data : List SolarDataPoint) :
    groupByDate data
      = (firstDates data).map
          (fun d => (d, data.filter (fun q => q.date = d))) := by
  induction data using List.reverseRecOn with
  | nil => rfl
  | append_singleton xs p ih =>
    have h1 : groupByDate (xs ++ [p]) = groupUpsert (groupByDate xs) p := by
      simp [groupByDate, List.foldl_append]
    have h2 : firstDates (xs ++ [p]) = keyInsert (firstDates xs) p.date := by
      simp [firstDates, List.foldl_append]
    have habs : p.date ∉ firstDates xs →
        xs.filter (fun q => q.date = p.date) = [] := by
      intro hni
      rw [List.filter_eq_nil]
      intro q hq hc
      have hc2 : q.date = p.date := by simpa using hc
      exact hni (hc2 ▸ date_mem_firstDates xs q hq)
    rw [h1, ih, h2, groupUpsert_map _ xs p (firstDates_nodup xs) habs]

/-- Ascending stable sort by hour, as `dayPoints.sort((a, b) => a.hour - b.hour)`. -/
def sortByHour (pts : List SolarDataPoint) : List SolarDataPoint :=
  List.insertionSort (fun a b => a.hour ≤ b.hour) pts

/-- The per-day walk state of `calculateStoragePotential` (advanced
calculations, lines 209-239). -/
structure StorageDayState where
  dailyExcess : ℚ
  dailyDeficit : ℚ
  storageLevel : ℚ
  additionalSelfConsumption : ℚ
  maxStorageNeeded : ℚ

def zeroDayState : StorageDayState := ⟨0, 0, 0, 0, 0⟩

/-- One chronological step of the storage simulation (lines 220-239). -/
def storageStep (s : StorageDayState) (p : SolarDataPoint) : StorageDayState :=
  let excess := p.excessExport
  let deficit := p.gridImport
  let s1 := { s with dailyExcess := s.dailyExcess + excess,
                     dailyDeficit := s.dailyDeficit + deficit }
  let s2 :=
    if 0 < excess then { s1 with storageLevel := s1.storageLevel + excess }
    else if 0 < deficit ∧ 0 < s1.storageLevel then
      let energyFromStorage := min s1.storageLevel deficit
      { s1 with storageLevel := s1.storageLevel - energyFromStorage,
                additionalSelfConsumption :=
                  s1.additionalSelfConsumption + energyFromStorage }
    else s1
  { s2 with maxStorageNeeded := max s2.maxStorageNeeded s2.storageLevel }

/-- One day's simulation: sort by hour, then walk from the zero state. -/
def simulateStorageDay (pts : List SolarDataPoint) : StorageDayState :=
  (sortByHour pts).foldl storageStep zeroDayState

structure StoragePotentialResult where
  totalExcessEnergy : ℚ
  totalDeficitEnergy : ℚ
  potentialAdditionalSelfConsumption : ℚ
  optimalStorageCapacity : ℚ
  currentSelfSufficiency : ℚ
  potentialSelfSufficiency : ℚ
  selfSufficiencyImprovement : ℚ
  storageUtilizationRate : ℚ

/-- Embeds `calculateStoragePotential` (advanced calculations, lines 191-278).
The per-day `forEach` accumulations of scalars are written as sums over
the mapped day results. -/
def calculateStoragePotential (data : List SolarDataPoint) :
    StoragePotentialResult :=
  let dayStates := (groupByDate data).map (fun g => simulateStorageDay g.2)
  let totalExcessEnergy := (dayStates.map (·.dailyExcess)).sum
  let totalDeficitEnergy := (dayStates.map (·.dailyDeficit)).sum
  let potentialAdditionalSelfConsumption :=
    (dayStates.map (·.additionalSelfConsumption)).sum
  let optimalStorageCapacity :=
    dayStates.foldl (fun m st => max m st.maxStorageNeeded) 0
  let totalEnergyDemand := (data.map (·.energyDemand)).sum
  let currentSelfConsumed :=
    (data.map (fun p => p.solarProduction - p.excessExport)).sum
  let currentSelfSufficiency :=
    if 0 < totalEnergyDemand then
      currentSelfConsumed / totalEnergyDemand * 100
    else 0
  let potentialSelfSufficiency :=
    if 0 < totalEnergyDemand then
      (currentSelfConsumed + potentialAdditionalSelfConsumption)
        / totalEnergyDemand * 100
    else 0
  { totalExcessEnergy := totalExcessEnergy,
    totalDeficitEnergy := totalDeficitEnergy,
    potentialAdditionalSelfConsumption := potentialAdditionalSelfConsumption,
    optimalStorageCapacity := optimalStorageCapacity,
    currentSelfSufficiency := currentSelfSufficiency,
    potentialSelfSufficiency := potentialSelfSufficiency,
    selfSufficiencyImprovement :=
      potentialSelfSufficiency - currentSelfSufficiency,
    storageUtilizationRate :=
      if 0 < totalExcessEnergy then
        potentialAdditionalSelfConsumption / totalExcessEnergy * 100
      else 0 }

lemma foldl_max_bounds (l : List ℚ) (a : ℚ) :
    a ≤ l.foldl max a ∧ ∀ x ∈ l, x ≤ l.foldl max a := by
  induction l generalizing a with
  | nil => simp
  | cons b t ih =>
    refine ⟨le_trans (le_max_left a b) (ih (max a b)).1, ?_⟩
    intro x hx
    rcases List.mem_cons.mp hx with rfl | hx'
    · exact le_trans (le_max_right a x) (ih (max a x)).1
    · exact (ih (max a b)).2 x hx'

/-- C6: `calculateStoragePotential` simulates each date's records
independently (the day of date `d` is exactly `data.filter (·.date = d)`),
starting from the zero state; charging and discharging follow the claimed
rules, the per-day maximum tracks the storage level after every step, and
`optimalStorageCapacity` is the running maximum (not the sum) of the
per-day maxima over all days. -/
theorem C6_storage_potential (data : List SolarDataPoint) :
    (calculateStoragePotential data).optimalStorageCapacity
      = ((firstDates data).map (fun d =>
          (simulateStorageDay
            (data.filter (fun q => q.date = d))).maxStorageNeeded)).foldl max 0 ∧
    (∀ d ∈ firstDates data,
      (simulateStorageDay
          (data.filter (fun q => q.date = d))).maxStorageNeeded
        ≤ (calculateStoragePotential data).optimalStorageCapacity) ∧
    (∀ pts, simulateStorageDay pts = (sortByHour pts).foldl storageStep
        ⟨0, 0, 0, 0, 0⟩) ∧
    (∀ s p, 0 < p.excessExport →
      (storageStep s p).storageLevel = s.storageLevel + p.excessExport ∧
      (storageStep s p).additionalSelfConsumption
        = s.additionalSelfConsumption) ∧
    (∀ s p, ¬ 0 < p.excessExport → 0 < p.gridImport → 0 < s.storageLevel →
      (storageStep s p).storageLevel
        = s.storageLevel - min s.storageLevel p.gridImport ∧
      (storageStep s p).additionalSelfConsumption
        = s.additionalSelfConsumption + min s.storageLevel p.gridImport) ∧
    (∀ s p, (storageStep s p).maxStorageNeeded
        = max s.maxStorageNeeded (storageStep s p).storageLevel) := by
  have hopt : (calculateStoragePotential data).optimalStorageCapacity
      = ((firstDates data).map (fun d =>
          (simulateStorageDay
            (data.filter (fun q => q.date = d))).maxStorageNeeded)).foldl max 0 := by
    show ((groupByDate data).map (fun g => simulateStorageDay g.2)).foldl
        (fun m st => max m st.maxStorageNeeded) 0 = _
    rw [groupByDate_eq, List.map_map]
    have hfold : ∀ (l : List StorageDayState) (a : ℚ),
        l.foldl (fun m st => max m st.maxStorageNeeded) a
          = (l.map (·.maxStorageNeeded)).foldl max a := by
      intro l
      induction l with
      | nil => intro a; rfl
      | cons st t ih => intro a; simp [List.foldl_cons, ih]
    rw [hfold, List.map_map]
    rfl
  refine ⟨hopt, ?_, fun pts => rfl, ?_, ?_, ?_⟩
  · intro d hd
    rw [hopt]
    exact (foldl_max_bounds _ 0).2 _ (List.mem_map.mpr ⟨d, hd, rfl⟩)
  · intro s p hp
    constructor <;> simp [storageStep, hp]
  · intro s p hp1 hp2 hp3
    constructor <;> simp [storageStep, hp1, hp2, hp3]
  · intro s p
    by_cases h1 : 0 < p.excessExport
    · simp [storageStep, h1]
    · by_cases h2 : 0 < p.gridImport ∧ 0 < s.storageLevel
      · simp [storageStep, h1, h2]
      · simp [storageStep, h1, h2]

/-- Concrete inputs for the discharge-step instance of C6. -/
def c6state : StorageDayState := ⟨3, 0, 2, 0, 2⟩

def c6point : SolarDataPoint :=
  { date := "2025-01-01", hour := 19, month := 1, year := 2025,
    dayOfWeek := 3, isWeekend := false, solarProduction := 0,
    energyDemand := 1, netEnergy := -1, gridImport := 1, excessExport := 0 }

theorem C6_storage_potential_witness :
    (storageStep c6state c6point).storageLevel
        = c6state.storageLevel - min c6state.storageLevel c6point.gridImport ∧
    (storageStep c6state c6point).additionalSelfConsumption
        = c6state.additionalSelfConsumption
          + min c6state.storageLevel c6point.gridImport :=
  (C6_storage_potential []).2.2.2.2.1 c6state c6point
    (by norm_num [c6point]) (by norm_num [c6point]) (by norm_num [c6state])

/-- Invariant maintained by the storage walk on derived-style records. -/
def StorageInv (s : StorageDayState) : Prop :=
  0 ≤ s.storageLevel ∧ 0 ≤ s.additionalSelfConsumption ∧
  s.additionalSelfConsumption + s.storageLevel ≤ s.dailyExcess ∧
  s.additionalSelfConsumption ≤ s.dailyDeficit

lemma storageStep_inv (s : StorageDayState) (p : SolarDataPoint)
    (hgi : 0 ≤ p.gridImport) (hee : 0 ≤ p.excessExport)
    (h : StorageInv s) : StorageInv (storageStep s p) := by
  obtain ⟨h1, h2, h3, h4⟩ := h
  by_cases hb1 : 0 < p.excessExport
  · refine ⟨?_, ?_, ?_, ?_⟩ <;> simp [storageStep, hb1] <;> linarith
  · have hee0 : p.excessExport = 0 := le_antisymm (not_lt.mp hb1) hee
    by_cases hb2 : 0 < p.gridImport ∧ 0 < s.storageLevel
    · have hm1 : min s.storageLevel p.gridImport ≤ s.storageLevel :=
        min_le_left _ _
      have hm2 : min s.storageLevel p.gridImport ≤ p.gridImport :=
        min_le_right _ _
      have hm0 : 0 ≤ min s.storageLevel p.gridImport := le_min h1 hgi
      refine ⟨?_, ?_, ?_, ?_⟩ <;> simp [storageStep, hb1, hb2] <;> linarith
    · refine ⟨?_, ?_, ?_, ?_⟩ <;> simp [storageStep, hb1, hb2] <;> linarith

lemma zeroDayState_inv : StorageInv zeroDayState := by
  refine ⟨le_refl 0, le_refl 0, ?_, le_refl 0⟩
  simp [zeroDayState]

lemma foldl_storageStep_inv (l : List SolarDataPoint)
    (hl : ∀ p ∈ l, 0 ≤ p.gridImport ∧ 0 ≤ p.excessExport)
    (s : StorageDayState) (hs : StorageInv s) :
    StorageInv (l.foldl storageStep s) := by
  induction l generalizing s with
  | nil => exact hs
  | cons p rest ih =>
    exact ih (fun q hq => hl q (List.mem_cons_of_mem p hq)) _
      (storageStep_inv s p (hl p (List.mem_cons_self p rest)).1
        (hl p (List.mem_cons_self p rest)).2 hs)

lemma mem_groupByDate_subset (data : List SolarDataPoint)
    (g : String × List SolarDataPoint) (hg : g ∈ groupByDate data) :
    ∀ p ∈ g.2, p ∈ data := by
  rw [groupByDate_eq] at hg
  obtain ⟨d, _, rfl⟩ := List.mem_map.mp hg
  exact fun p hp => (List.mem_filter.mp hp).1

lemma mem_sortByHour (pts : List SolarDataPoint) (p : SolarDataPoint) :
    p ∈ sortByHour pts ↔ p ∈ pts :=
  (List.perm_insertionSort (fun a b => a.hour ≤ b.hour) pts).mem_iff

/-- C9: on records with non-negative `gridImport`/`excessExport`, the
simulated storage level stays non-negative after every prefix of every
day's walk, the additional self-consumption is bounded by both the total
excess and the total deficit, and the self-sufficiency improvement is
non-negative. -/
theorem C9_storage_invariants (data : List SolarDataPoint)
    (h : ∀ p ∈ data, 0 ≤ p.gridImport ∧ 0 ≤ p.excessExport) :
    (∀ g ∈ groupByDate data, ∀ n : ℕ,
      0 ≤ (((sortByHour g.2).take n).foldl storageStep
            zeroDayState).storageLevel) ∧
    (calculateStoragePotential data).potentialAdditionalSelfConsumption
      ≤ (calculateStoragePotential data).totalExcessEnergy ∧
    (calculateStoragePotential data).potentialAdditionalSelfConsumption
      ≤ (calculateStoragePotential data).totalDeficitEnergy ∧
    0 ≤ (calculateStoragePotential data).selfSufficiencyImprovement := by
  have hmem : ∀ g ∈ groupByDate data, ∀ p ∈ sortByHour g.2,
      0 ≤ p.gridImport ∧ 0 ≤ p.excessExport := by
    intro g hg p hp
    exact h p (mem_groupByDate_subset data g hg p ((mem_sortByHour g.2 p).mp hp))
  have hinv : ∀ g ∈ groupByDate data, StorageInv (simulateStorageDay g.2) := by
    intro g hg
    exact foldl_storageStep_inv _ (hmem g hg) _ zeroDayState_inv
  have hinv_states : ∀ st ∈ (groupByDate data).map
      (fun g => simulateStorageDay g.2), StorageInv st := by
    intro st hst
    obtain ⟨g, hg, rfl⟩ := List.mem_map.mp hst
    exact hinv g hg
  have e1 : (calculateStoragePotential data).potentialAdditionalSelfConsumption
      = (((groupByDate data).map (fun g => simulateStorageDay g.2)).map
          (·.additionalSelfConsumption)).sum := rfl
  have e2 : (calculateStoragePotential data).totalExcessEnergy
      = (((groupByDate data).map (fun g => simulateStorageDay g.2)).map
          (·.dailyExcess)).sum := rfl
  have e3 : (calculateStoragePotential data).totalDeficitEnergy
      = (((groupByDate data).map (fun g => simulateStorageDay g.2)).map
          (·.dailyDeficit)).sum := rfl
  refine ⟨?_, ?_, ?_, ?_⟩
  · intro g hg n
    exact (foldl_storageStep_inv _
      (fun p hp => hmem g hg p (List.take_subset n _ hp)) _ zeroDayState_inv).1
  · rw [e1, e2]
    exact List.sum_le_sum fun st hst =>
      le_trans (le_add_of_nonneg_right (hinv_states st hst).1)
        (hinv_states st hst).2.2.1
  · rw [e1, e3]
    exact List.sum_le_sum fun st hst => (hinv_states st hst).2.2.2
  · have hasc : 0 ≤ (calculateStoragePotential
        data).potentialAdditionalSelfConsumption := by
      rw [e1]
      exact List.sum_nonneg fun x hx => by
        obtain ⟨st, hst, rfl⟩ := List.mem_map.mp hx
        exact (hinv_states st hst).2.1
    have e4 : (calculateStoragePotential data).selfSufficiencyImprovement
        = (if 0 < (data.map (·.energyDemand)).sum then
            ((data.map (fun p => p.solarProduction - p.excessExport)).sum
              + (calculateStoragePotential
                  data).potentialAdditionalSelfConsumption)
              / (data.map (·.energyDemand)).sum * 100
          else 0)
          - (if 0 < (data.map (·.energyDemand)).sum then
            (data.map (fun p => p.solarProduction - p.excessExport)).sum
              / (data.map (·.energyDemand)).sum * 100
          else 0) := rfl
    rw [e4]
    by_cases hd : 0 < (data.map (·.energyDemand)).sum
    · rw [if_pos hd, if_pos hd]
      have harith : ((data.map (fun p => p.solarProduction - p.excessExport)).sum
            + (calculateStoragePotential
                data).potentialAdditionalSelfConsumption)
            / (data.map (·.energyDemand)).sum * 100
          - (data.map (fun p => p.solarProduction - p.excessExport)).sum
            / (data.map (·.energyDemand)).sum * 100
          = (calculateStoragePotential
              data).potentialAdditionalSelfConsumption
            / (data.map (·.energyDemand)).sum * 100 := by
        ring
      rw [harith]
      positivity
    · rw [if_neg hd, if_neg hd]
      simp

theorem C9_storage_invariants_witness :
    (calculateStoragePotential c2data).potentialAdditionalSelfConsumption
      ≤ (calculateStoragePotential c2data).totalExcessEnergy ∧
    (calculateStoragePotential c2data).potentialAdditionalSelfConsumption
      ≤ (calculateStoragePotential c2data).totalDeficitEnergy ∧
    0 ≤ (calculateStoragePotential c2data).selfSufficiencyImprovement :=
  ⟨(C9_storage_invariants c2data
      (by intro p hp; fin_cases hp <;> exact ⟨by norm_num, by norm_num⟩)).2.1,
   (C9_storage_invariants c2data
      (by intro p hp; fin_cases hp <;> exact ⟨by norm_num, by norm_num⟩)).2.2.1,
   (C9_storage_invariants c2data
      (by intro p hp; fin_cases hp <;> exact ⟨by norm_num, by norm_num⟩)).2.2.2⟩

/-- The value of the first element of a non-empty array sorted descending,
i.e. the list maximum; 0 on the empty list, which `calculatePeakShaving`
never hits because every group holds at least one record. -/
def listMax1 : List ℚ → ℚ
  | [] => 0
  | x :: xs => xs.foldl max x

/-- Embeds the peak lookup `[...dayPoints].sort((a, b) => b.energyDemand - a.energyDemand)[0].energyDemand`. -/
def peakDemandOf (pts : List SolarDataPoint) : ℚ :=
  listMax1 (pts.map (·.energyDemand))

/-- Embeds the post-shave peak `Math.max(...modifiedDemand.map(p => p.gridImport || 0))`. -/
def maxGridImport (pts : List SolarDataPoint) : ℚ :=
  listMax1 (pts.map (·.gridImport))

/-- The per-day shaving pass of `calculatePeakShaving` (advanced
calculations, lines 317-338): a map over the hour-sorted day carrying the
mutable `storageLevel`. -/
def shaveDay (peakDemand maxDischargeRate : ℚ) :
    ℚ → List SolarDataPoint → List SolarDataPoint
  | _, [] => []
  | storageLevel, p :: rest =>
    if peakDemand * (7/10) < p.energyDemand ∧ 0 < storageLevel then
      let dischargeNeeded :=
        min (p.energyDemand - (p.solarProduction - p.excessExport))
          (min maxDischargeRate storageLevel)
      if 0 < dischargeNeeded then
        { p with gridImport := max 0 (p.gridImport - dischargeNeeded) }
          :: shaveDay peakDemand maxDischargeRate
              (storageLevel - dischargeNeeded) rest
      else p :: shaveDay peakDemand maxDischargeRate storageLevel rest
    else p :: shaveDay peakDemand maxDischargeRate storageLevel rest

structure PeakShavingResult where
  totalPeakDemand : ℚ
  totalPeakDemandAfterShaving : ℚ
  totalPeakReduction : ℚ
  peakReductionPercentage : ℚ
  recommendedStorageCapacity : ℚ
  daysAnalyzed : ℕ

/-- Embeds `calculatePeakShaving` (advanced calculations, lines 287-362); the
parameters default to 5 kWh and 2 kW at call sites. -/
def calculatePeakShaving (data : List SolarDataPoint)
    (storageCapacity maxDischargeRate : ℚ) : PeakShavingResult :=
  let groups := groupByDate data
  let dayPeaks := groups.map (fun g =>
    (peakDemandOf (sortByHour g.2),
     maxGridImport (shaveDay (peakDemandOf (sortByHour g.2))
       maxDischargeRate storageCapacity (sortByHour g.2))))
  let totalPeakDemand := (dayPeaks.map (·.1)).sum
  let totalPeakDemandAfterShaving := (dayPeaks.map (·.2)).sum
  let totalPeakReduction := (dayPeaks.map (fun q => q.1 - q.2)).sum
  { totalPeakDemand := totalPeakDemand,
    totalPeakDemandAfterShaving := totalPeakDemandAfterShaving,
    totalPeakReduction := totalPeakReduction,
    peakReductionPercentage :=
      if 0 < totalPeakDemand then
        totalPeakReduction / totalPeakDemand * 100
      else 0,
    recommendedStorageCapacity := storageCapacity,
    daysAnalyzed := groups.length }

lemma foldl_max_mem (l : List ℚ) (a : ℚ) :
    l.foldl max a = a ∨ l.foldl max a ∈ l := by
  induction l generalizing a with
  | nil => left; rfl
  | cons b t ih =>
    rcases ih (max a b) with h | h
    · rcases max_choice a b with hm | hm
      · left; rw [List.foldl_cons, h, hm]
      · right; rw [List.foldl_cons, h, hm]; simp
    · right
      rw [List.foldl_cons]
      exact List.mem_cons_of_mem _ h

lemma listMax1_bounds (l : List ℚ) (hne : l ≠ []) :
    (∀ x ∈ l, x ≤ listMax1 l) ∧ listMax1 l ∈ l := by
  match l with
  | x :: xs =>
    constructor
    · intro y hy
      rcases List.mem_cons.mp hy with rfl | hy'
      · exact (foldl_max_bounds xs y).1
      · exact (foldl_max_bounds xs x).2 y hy'
    · show xs.foldl max x ∈ x :: xs
      rcases foldl_max_mem xs x with h | h
      · rw [h]; simp
      · exact List.mem_cons_of_mem _ h

/-- C7: per non-empty day the pre-shaving peak is the maximum raw
`energyDemand`; storage starts full at `storageCapacity` and each
qualifying hour (demand above 0.7 of the peak, storage left) discharges
`min(residual demand, maxDischargeRate, storageLevel)` — only when positive
— clamping `gridImport` at 0; the post-shaving peak is the maximum of the
modified `gridImport` values; per-day peaks and post-shave peaks are summed
across days; and the reduction percentage divides total reduction by total
peak demand, substituting 0 on a zero denominator. -/
theorem C7_peak_shaving (data : List SolarDataPoint)
    (storageCapacity maxDischargeRate : ℚ) :
    (calculatePeakShaving data storageCapacity maxDischargeRate).totalPeakDemand
      = ((firstDates data).map (fun d =>
          peakDemandOf (sortByHour (data.filter (fun q => q.date = d))))).sum ∧
    (calculatePeakShaving data storageCapacity
        maxDischargeRate).totalPeakDemandAfterShaving
      = ((firstDates data).map (fun d =>
          maxGridImport (shaveDay
            (peakDemandOf (sortByHour (data.filter (fun q => q.date = d))))
            maxDischargeRate storageCapacity
            (sortByHour (data.filter (fun q => q.date = d)))))).sum ∧
    (∀ pts : List SolarDataPoint, pts ≠ [] →
      (∀ p ∈ pts, p.energyDemand ≤ peakDemandOf pts) ∧
      ∃ p ∈ pts, peakDemandOf pts = p.energyDemand) ∧
    (∀ pts : List SolarDataPoint, pts ≠ [] →
      (∀ p ∈ pts, p.gridImport ≤ maxGridImport pts) ∧
      ∃ p ∈ pts, maxGridImport pts = p.gridImport) ∧
    (∀ pk mdr s : ℚ, ∀ p : SolarDataPoint, ∀ rest : List SolarDataPoint,
      (pk * (7/10) < p.energyDemand → 0 < s →
        0 < min (p.energyDemand - (p.solarProduction - p.excessExport))
              (min mdr s) →
        shaveDay pk mdr s (p :: rest)
          = { p with gridImport := max 0 (p.gridImport
                - min (p.energyDemand - (p.solarProduction - p.excessExport))
                    (min mdr s)) }
            :: shaveDay pk mdr
                (s - min (p.energyDemand - (p.solarProduction - p.excessExport))
                      (min mdr s)) rest) ∧
      (¬ (pk * (7/10) < p.energyDemand ∧ 0 < s) →
        shaveDay pk mdr s (p :: rest) = p :: shaveDay pk mdr s rest) ∧
      (pk * (7/10) < p.energyDemand → 0 < s →
        ¬ 0 < min (p.energyDemand - (p.solarProduction - p.excessExport))
              (min mdr s) →
        shaveDay pk mdr s (p :: rest) = p :: shaveDay pk mdr s rest)) ∧
    (calculatePeakShaving data storageCapacity
        maxDischargeRate).totalPeakReduction
      = (calculatePeakShaving data storageCapacity
          maxDischargeRate).totalPeakDemand
        - (calculatePeakShaving data storageCapacity
            maxDischargeRate).totalPeakDemandAfterShaving ∧
    (0 < (calculatePeakShaving data storageCapacity
        maxDischargeRate).totalPeakDemand →
      (calculatePeakShaving data storageCapacity
          maxDischargeRate).peakReductionPercentage
        = (calculatePeakShaving data storageCapacity
            maxDischargeRate).totalPeakReduction
          / (calculatePeakShaving data storageCapacity
              maxDischargeRate).totalPeakDemand * 100) ∧
    ((calculatePeakShaving data storageCapacity
        maxDischargeRate).totalPeakDemand = 0 →
      (calculatePeakShaving data storageCapacity
          maxDischargeRate).peakReductionPercentage = 0) := by
  refine ⟨?_, ?_, ?_, ?_, ?_, ?_, ?_, ?_⟩
  · show (((groupByDate data).map (fun g =>
        (peakDemandOf (sortByHour g.2),
         maxGridImport (shaveDay (peakDemandOf (sortByHour g.2))
           maxDischargeRate storageCapacity (sortByHour g.2))))).map (·.1)).sum
        = _
    rw [groupByDate_eq, List.map_map, List.map_map]
    rfl
  · show (((groupByDate data).map (fun g =>
        (peakDemandOf (sortByHour g.2),
         maxGridImport (shaveDay (peakDemandOf (sortByHour g.2))
           maxDischargeRate storageCapacity (sortByHour g.2))))).map (·.2)).sum
        = _
    rw [groupByDate_eq, List.map_map, List.map_map]
    rfl
  · intro pts hne
    have hmapne : pts.map (·.energyDemand) ≠ [] := by
      intro hc
      exact hne (List.map_eq_nil.mp hc)
    obtain ⟨hb, hm⟩ := listMax1_bounds (pts.map (·.energyDemand)) hmapne
    constructor
    · intro p hp
      exact hb _ (List.mem_map.mpr ⟨p, hp, rfl⟩)
    · obtain ⟨p, hp, he⟩ := List.mem_map.mp hm
      exact ⟨p, hp, he.symm⟩
  · intro pts hne
    have hmapne : pts.map (·.gridImport) ≠ [] := by
      intro hc
      exact hne (List.map_eq_nil.mp hc)
    obtain ⟨hb, hm⟩ := listMax1_bounds (pts.map (·.gridImport)) hmapne
    constructor
    · intro p hp
      exact hb _ (List.mem_map.mpr ⟨p, hp, rfl⟩)
    · obtain ⟨p, hp, he⟩ := List.mem_map.mp hm
      exact ⟨p, hp, he.symm⟩
  · intro pk mdr s p rest
    refine ⟨?_, ?_, ?_⟩
    · intro h1 h2 h3
      simp [shaveDay, h1, h2, h3]
    · intro h
      simp [shaveDay, h]
    · intro h1 h2 h3
      simp [shaveDay, h1, h2, h3]
  · show (((groupByDate data).map (fun g =>
        (peakDemandOf (sortByHour g.2),
         maxGridImport (shaveDay (peakDemandOf (sortByHour g.2))
           maxDischargeRate storageCapacity (sortByHour g.2))))).map
          (fun q => q.1 - q.2)).sum = _
    rw [sum_map_sub]
    rfl
  · intro h
    have h2 : 0 < (((groupByDate data).map (fun g =>
        (peakDemandOf (sortByHour g.2),
         maxGridImport (shaveDay (peakDemandOf (sortByHour g.2))
           maxDischargeRate storageCapacity (sortByHour g.2))))).map (·.1)).sum := h
    show (if 0 < (((groupByDate data).map (fun g =>
        (peakDemandOf (sortByHour g.2),
         maxGridImport (shaveDay (peakDemandOf (sortByHour g.2))
           maxDischargeRate storageCapacity (sortByHour g.2))))).map (·.1)).sum
        then _ / _ * 100 else 0) = _
    rw [if_pos h2]
    rfl
  · intro h
    have h2 : ¬ 0 < (((groupByDate data).map (fun g =>
        (peakDemandOf (sortByHour g.2),
         maxGridImport (shaveDay (peakDemandOf (sortByHour g.2))
           maxDischargeRate storageCapacity (sortByHour g.2))))).map (·.1)).sum := by
      have e : (((groupByDate data).map (fun g =>
        (peakDemandOf (sortByHour g.2),
         maxGridImport (shaveDay (peakDemandOf (sortByHour g.2))
           maxDischargeRate storageCapacity (sortByHour g.2))))).map (·.1)).sum
          = (calculatePeakShaving data storageCapacity
              maxDischargeRate).totalPeakDemand := rfl
      rw [e, h]
      exact lt_irrefl 0
    show (if 0 < (((groupByDate data).map (fun g =>
        (peakDemandOf (sortByHour g.2),
         maxGridImport (shaveDay (peakDemandOf (sortByHour g.2))
           maxDischargeRate storageCapacity (sortByHour g.2))))).map (·.1)).sum
        then _ / _ * 100 else 0) = 0
    rw [if_neg h2]

theorem C7_peak_shaving_witness :
    shaveDay 10 2 5 [c6point] = c6point :: shaveDay 10 2 5 [] ∧
    (calculatePeakShaving [] 5 2).peakReductionPercentage = 0 :=
  ⟨((C7_peak_shaving [] 5 2).2.2.2.2.1 10 2 5 c6point []).2.1
      (by norm_num [c6point]),
   (C7_peak_shaving [] 5 2).2.2.2.2.2.2.2 rfl⟩
